import Mathlib

/-!
Shallow embedding of the upload-coordinator worker in src/src/index.ts
(large-video-uploader). The worker exposes three routes — /initiate,
/sign-part, /complete — over an S3-compatible storage backend, plus an
OPTIONS preflight branch, CORS decoration of every response, and a
catch-all error handler. The backend (S3Client.send / getSignedUrl) is
modelled as an oracle, and the handler additionally returns the list of
backend commands it issued, so that "no backend operation is invoked"
claims can be stated.
-/

namespace LargeVideoUploader

/-- A JavaScript error value as observed by the catch handler: its
`message` and `stack` properties. -/
structure JSError where
  message : String
  stack : String
deriving Repr, DecidableEq

/-- The result of the JS `Number(...)` conversion: NaN or a numeric
value. The worker only ever feeds `Number` the string (or null) returned
by `url.searchParams.get("partNumber")`; we model the integer fragment
of the conversion, which covers every input the claims exercise. -/
inductive JSNum where
  | nan : JSNum
  | int : Int → JSNum
deriving Repr, DecidableEq

/-- Numeric value of a `JSNum`, used where the worker forwards the parsed
`partNumber` to the backend (only reached when the value is a nonzero
integer). -/
def JSNum.toInt : JSNum → Int
  | .nan => 0
  | .int n => n

/-- True when every character is a decimal digit. -/
def allDigits : List Char → Bool
  | [] => true
  | c :: cs => c.isDigit && allDigits cs

/-- Decimal value of a digit list, most significant first. -/
def digitsToNat (acc : Nat) : List Char → Nat
  | [] => acc
  | c :: cs => digitsToNat (acc * 10 + (c.toNat - 48)) cs

/-- Unsigned decimal parse: `some` exactly on nonempty all-digit lists. -/
def parseDecimal (cs : List Char) : Option Nat :=
  if cs.isEmpty then none
  else if allDigits cs then some (digitsToNat 0 cs) else none

/-- Strips leading and trailing whitespace, as JS `Number` does before
converting a string. -/
def jsTrim (cs : List Char) : List Char :=
  ((cs.dropWhile Char.isWhitespace).reverse.dropWhile Char.isWhitespace).reverse

/-- Models `Number(x)` for `x : string | null` (the type of
`url.searchParams.get(...)`): `Number(null) = 0`, a whitespace-trimmed
empty string gives `0`, an optionally signed decimal digit string gives
that integer, and anything else gives NaN. (Fractional / hex / exponent
forms, which JS also accepts, fall outside the inputs this development
exercises and are mapped to NaN.) -/
def jsNumber : Option String → JSNum
  | none => .int 0
  | some s =>
    match jsTrim s.data with
    | [] => .int 0
    | '-' :: rest =>
      match parseDecimal rest with
      | some n => .int (-(n : Int))
      | none => .nan
    | '+' :: rest =>
      match parseDecimal rest with
      | some n => .int (n : Int)
      | none => .nan
    | cs =>
      match parseDecimal cs with
      | some n => .int (n : Int)
      | none => .nan

/-- JS falsiness of a `string | null` value: `!x` is true exactly when
`x` is null or the empty string. -/
def strFalsy : Option String → Bool
  | none => true
  | some s => s == ""

/-- JS falsiness of a number: `!n` is true exactly when `n` is NaN or
(signed) zero. -/
def numFalsy : JSNum → Bool
  | .nan => true
  | .int n => n == 0

/-- One `{etag, partNumber}` pair of the client's completion manifest. -/
structure ReqPart where
  etag : String
  partNumber : Int
deriving Repr, DecidableEq

/-- The parsed JSON body of a /complete request (the unchecked
`as CompleteUploadRequest` cast: every field may be absent). -/
structure CompleteBody where
  key : Option String
  uploadId : Option String
  parts : Option (List ReqPart)
deriving Repr, DecidableEq

/-- One `{ETag, PartNumber}` entry of `MultipartUpload.Parts` after the
field-renaming `map` in the /complete branch. -/
structure S3Part where
  ETag : String
  PartNumber : Int
deriving Repr, DecidableEq

/-- Result of `CreateMultipartUploadCommand` (`res.UploadId` is optional
in the SDK's types). -/
structure CreateResult where
  UploadId : Option String
deriving Repr, DecidableEq

/-- Result of `CompleteMultipartUploadCommand` (`result.Location` is
optional in the SDK's types). -/
structure CompleteResult where
  Location : Option String
deriving Repr, DecidableEq

/-- A command issued to the storage backend: the bucket, key and other
arguments of the three S3 commands the worker constructs. -/
inductive BackendCall where
  | createMultipartUpload : String → String → BackendCall
  | uploadPart : String → String → Int → String → BackendCall
  | completeMultipartUpload : String → String → String → List S3Part → BackendCall
deriving Repr, DecidableEq

/-- The storage backend oracle: how `s3.send` / `getSignedUrl` respond to
each command. An `Except.error` models the SDK call throwing. -/
structure Backend where
  createMultipartUpload : String → String → Except JSError CreateResult
  getSignedUrl : String → String → Int → String → Except JSError String
  completeMultipartUpload : String → String → String → List S3Part → Except JSError CompleteResult

/-- The structured JSON (or text) bodies the worker serializes. -/
inductive RespBody where
  | empty : RespBody
  | text : String → RespBody
  | initiateJson : Option String → String → RespBody
  | signJson : String → RespBody
  | completeJson : Option String → String → RespBody
  | errorJson : String → String → RespBody
deriving Repr, DecidableEq

/-- An HTTP response: status, body, and header list. -/
structure Response where
  status : Nat
  body : RespBody
  headers : List (String × String)
deriving Repr, DecidableEq

/-- `Headers.set k v`: any existing entry for `k` is replaced, the new
pair is appended. -/
def setHeader (hs : List (String × String)) (k v : String) : List (String × String) :=
  hs.filter (fun p => p.1 != k) ++ [(k, v)]

/-- `Headers.get k`: the value of the first entry for `k`, if any. -/
def getHeader (hs : List (String × String)) (k : String) : Option String :=
  (hs.find? (fun p => p.1 == k)).map (fun p => p.2)

/-- `withCors` (src/src/index.ts:22-28): copies the response and sets the
three permissive CORS headers on it. -/
def withCors (r : Response) : Response :=
  let hs :=
    setHeader (setHeader (setHeader r.headers
      "Access-Control-Allow-Origin" "*")
      "Access-Control-Allow-Methods" "GET,POST,OPTIONS")
      "Access-Control-Allow-Headers" "Content-Type"
  { r with headers := hs }

/-- An inbound HTTP request as the handler consumes it: the method, the
URL's pathname and search params, and the result of `await request.json()`
(`Except.error` models the parse throwing on a malformed body). -/
structure Request where
  method : String
  pathname : String
  params : List (String × String)
  jsonBody : Except JSError CompleteBody

/-- `url.searchParams.get k`: first value for `k`, or null. -/
def searchParamsGet (ps : List (String × String)) (k : String) : Option String :=
  (ps.find? (fun p => p.1 == k)).map (fun p => p.2)

/-- The catch handler (src/src/index.ts:133-141): serializes
`{error: err.message, stack: err.stack}` with status 500 and CORS
headers. -/
def catchResponse (e : JSError) : Response :=
  withCors { status := 500, body := .errorJson e.message e.stack,
             headers := [("Content-Type", "application/json")] }

/-- The worker entry point `fetch` (src/src/index.ts:31-142). `uuid`
stands for the value `crypto.randomUUID()` returns in this invocation.
The result pairs the HTTP response with the list of backend commands that
were issued during handling. -/
def fetch (req : Request) (uuid : String) (backend : Backend) :
    Response × List BackendCall :=
  if req.method = "OPTIONS" then
    ({ status := 200, body := .empty,
       headers := [("Access-Control-Allow-Origin", "*"),
                   ("Access-Control-Allow-Methods", "GET,POST,OPTIONS"),
                   ("Access-Control-Allow-Headers", "Content-Type")] }, [])
  else if req.pathname = "/initiate" then
    let key := "uploads/" ++ uuid ++ ".mp4"
    match backend.createMultipartUpload "large-video-uploads" key with
    | .error e =>
      (catchResponse e, [.createMultipartUpload "large-video-uploads" key])
    | .ok res =>
      (withCors { status := 200, body := .initiateJson res.UploadId key,
                  headers := [("Content-Type", "application/json")] },
       [.createMultipartUpload "large-video-uploads" key])
  else if req.pathname = "/sign-part" then
    let key := searchParamsGet req.params "key"
    let uploadId := searchParamsGet req.params "uploadId"
    let partNumber := jsNumber (searchParamsGet req.params "partNumber")
    if strFalsy key || strFalsy uploadId || numFalsy partNumber then
      (withCors { status := 400, body := .text "Missing parameters", headers := [] }, [])
    else
      match backend.getSignedUrl "large-video=uploads" (key.getD "")
              partNumber.toInt (uploadId.getD "") with
      | .error e =>
        (catchResponse e,
         [.uploadPart "large-video=uploads" (key.getD "") partNumber.toInt (uploadId.getD "")])
      | .ok signedUrl =>
        (withCors { status := 200, body := .signJson signedUrl,
                    headers := [("Content-Type", "application/json")] },
         [.uploadPart "large-video=uploads" (key.getD "") partNumber.toInt (uploadId.getD "")])
  else if req.pathname = "/complete" then
    match req.jsonBody with
    | .error e => (catchResponse e, [])
    | .ok body =>
      if strFalsy body.key || strFalsy body.uploadId || (body.parts.getD []).isEmpty then
        (withCors { status := 400, body := .text "Invalid request body", headers := [] }, [])
      else
        let parts := (body.parts.getD []).map (fun p => S3Part.mk p.etag p.partNumber)
        match backend.completeMultipartUpload "large-video-uploads"
                (body.key.getD "") (body.uploadId.getD "") parts with
        | .error e =>
          (catchResponse e,
           [.completeMultipartUpload "large-video-uploads"
              (body.key.getD "") (body.uploadId.getD "") parts])
        | .ok res =>
          (withCors { status := 200, body := .completeJson res.Location (body.key.getD ""),
                      headers := [("Content-Type", "application/json")] },
           [.completeMultipartUpload "large-video-uploads"
              (body.key.getD "") (body.uploadId.getD "") parts])
  else
    (withCors { status := 404, body := .text "Not found", headers := [] }, [])

/-! ### Concrete stubs used as witnesses -/

/-- A backend stub on which every command succeeds. -/
def stubBackend : Backend where
  createMultipartUpload := fun _ _ => .ok ⟨some "U1"⟩
  getSignedUrl := fun _ _ _ _ => .ok "https://signed.example/p"
  completeMultipartUpload := fun _ _ _ _ => .ok ⟨some "https://loc.example/o"⟩

/-- A backend stub whose completion call raises "session not found". -/
def sessionNotFoundBackend : Backend where
  createMultipartUpload := fun _ _ => .ok ⟨some "U1"⟩
  getSignedUrl := fun _ _ _ _ => .ok "https://signed.example/p"
  completeMultipartUpload := fun _ _ _ _ =>
    .error ⟨"session not found", "Error: session not found\n    at complete"⟩

/-- A parsed body with every field absent. -/
def emptyBody : CompleteBody := ⟨none, none, none⟩

/-! ### Header lemmas -/

/-- Unfolding `getHeader` over a cons cell. -/
theorem getHeader_cons (p : String × String) (l : List (String × String)) (k : String) :
    getHeader (p :: l) k = if p.1 == k then some p.2 else getHeader l k := by
  by_cases h : p.1 = k
  · simp [getHeader, List.find?, h]
  · have hb : (p.1 == k) = false := by simp [h]
    simp [getHeader, List.find?, hb]

/-- `setHeader` drops a leading entry whose key is being set. -/
theorem setHeader_cons_self (p : String × String) (t : List (String × String))
    (k v : String) (hp : p.1 = k) : setHeader (p :: t) k v = setHeader t k v := by
  simp [setHeader, List.filter_cons, hp]

/-- `setHeader` keeps a leading entry for a different key. -/
theorem setHeader_cons_ne (p : String × String) (t : List (String × String))
    (k v : String) (hp : ¬p.1 = k) : setHeader (p :: t) k v = p :: setHeader t k v := by
  simp [setHeader, List.filter_cons, hp]

/-- Reading back the key just set yields the value just set. -/
theorem getHeader_setHeader_self (hs : List (String × String)) (k v : String) :
    getHeader (setHeader hs k v) k = some v := by
  induction hs with
  | nil => simp [getHeader, setHeader]
  | cons p t ih =>
    by_cases h : p.1 = k
    · rw [setHeader_cons_self p t k v h]; exact ih
    · rw [setHeader_cons_ne p t k v h, getHeader_cons]
      simp [h, ih]

/-- Setting one key leaves the value read at a different key unchanged. -/
theorem getHeader_setHeader_ne (hs : List (String × String)) (k k' v : String)
    (h : k' ≠ k) : getHeader (setHeader hs k v) k' = getHeader hs k' := by
  induction hs with
  | nil =>
    have hb : (k == k') = false := by simp [Ne.symm h]
    simp [getHeader, setHeader, List.find?, hb]
  | cons p t ih =>
    by_cases hp : p.1 = k
    · have hp' : ¬p.1 = k' := by rw [hp]; exact fun hc => h hc.symm
      rw [setHeader_cons_self p t k v hp, ih, getHeader_cons]
      simp [hp']
    · rw [setHeader_cons_ne p t k v hp, getHeader_cons, getHeader_cons, ih]

/-- A response carries the three permissive CORS headers. -/
def hasCorsHeaders (r : Response) : Prop :=
  getHeader r.headers "Access-Control-Allow-Origin" = some "*" ∧
  getHeader r.headers "Access-Control-Allow-Methods" = some "GET,POST,OPTIONS" ∧
  getHeader r.headers "Access-Control-Allow-Headers" = some "Content-Type"

/-- Every response that passes through `withCors` carries the three CORS
headers. -/
theorem withCors_hasCorsHeaders (r : Response) : hasCorsHeaders (withCors r) := by
  refine ⟨?_, ?_, ?_⟩
  · rw [withCors]
    rw [getHeader_setHeader_ne _ _ _ _ (by decide),
        getHeader_setHeader_ne _ _ _ _ (by decide)]
    exact getHeader_setHeader_self _ _ _
  · rw [withCors]
    rw [getHeader_setHeader_ne _ _ _ _ (by decide)]
    exact getHeader_setHeader_self _ _ _
  · rw [withCors]
    exact getHeader_setHeader_self _ _ _

/-! ### Concrete requests -/

/-- A GET request for /initiate. -/
def initReq : Request := ⟨"GET", "/initiate", [], .ok emptyBody⟩

/-- A well-formed GET request for /sign-part. -/
def signReq : Request :=
  ⟨"GET", "/sign-part",
   [("key", "uploads/abc.mp4"), ("uploadId", "U1"), ("partNumber", "1")],
   .ok emptyBody⟩

/-- A well-formed POST request for /complete with a one-part manifest. -/
def completeReqOk : Request :=
  ⟨"POST", "/complete", [], .ok ⟨some "uploads/abc.mp4", some "U1", some [⟨"e1", 1⟩]⟩⟩

/-- An OPTIONS preflight request to /complete. -/
def optionsReq : Request := ⟨"OPTIONS", "/complete", [], .ok emptyBody⟩

/-! ### Claim theorems -/

/-- C1: the claim says the Bucket argument is the same fixed string in all
three phases. The code violates it: on concrete invocations of the three
phases, initiate and complete send Bucket "large-video-uploads" but
sign-part sends Bucket "large-video=uploads", a different string. -/
theorem bucket_name_differs_in_sign_part :
    (fetch initReq "abc" stubBackend).2 =
      [BackendCall.createMultipartUpload "large-video-uploads" "uploads/abc.mp4"] ∧
    (fetch signReq "abc" stubBackend).2 =
      [BackendCall.uploadPart "large-video=uploads" "uploads/abc.mp4" 1 "U1"] ∧
    (fetch completeReqOk "abc" stubBackend).2 =
      [BackendCall.completeMultipartUpload "large-video-uploads" "uploads/abc.mp4" "U1"
        [⟨"e1", 1⟩]] ∧
    ("large-video=uploads" : String) ≠ "large-video-uploads" := by
  exact ⟨by decide, by decide, by decide, by decide⟩

/-- C8: every OPTIONS request, whatever its path, gets status 200 with an
empty body, exactly the three CORS headers, and no backend command. -/
theorem options_preflight (req : Request) (uuid : String) (b : Backend)
    (h : req.method = "OPTIONS") :
    (fetch req uuid b).1.status = 200 ∧
    (fetch req uuid b).1.body = RespBody.empty ∧
    (fetch req uuid b).1.headers =
      [("Access-Control-Allow-Origin", "*"),
       ("Access-Control-Allow-Methods", "GET,POST,OPTIONS"),
       ("Access-Control-Allow-Headers", "Content-Type")] ∧
    (fetch req uuid b).2 = [] := by
  simp [fetch, h]

/-- Witness for C8 at the concrete preflight request to /complete. -/
theorem options_preflight_witness :
    (fetch optionsReq "u" stubBackend).1.status = 200 ∧
    (fetch optionsReq "u" stubBackend).1.body = RespBody.empty ∧
    (fetch optionsReq "u" stubBackend).1.headers =
      [("Access-Control-Allow-Origin", "*"),
       ("Access-Control-Allow-Methods", "GET,POST,OPTIONS"),
       ("Access-Control-Allow-Headers", "Content-Type")] ∧
    (fetch optionsReq "u" stubBackend).2 = [] :=
  options_preflight optionsReq "u" stubBackend rfl

/-- C9: every response the handler produces — across all branches,
request shapes, uuid values, and backend behaviors — carries the three
permissive CORS headers. -/
theorem every_response_has_cors (req : Request) (uuid : String) (b : Backend) :
    hasCorsHeaders (fetch req uuid b).1 := by
  unfold fetch
  repeat' first
    | exact withCors_hasCorsHeaders _
    | exact ⟨rfl, rfl, rfl⟩
    | split
    | dsimp only

/-- A /sign-part request with a negative partNumber. -/
def signReqNeg : Request :=
  ⟨"GET", "/sign-part",
   [("key", "k"), ("uploadId", "u"), ("partNumber", "-1")], .ok emptyBody⟩

/-- A /sign-part request with partNumber 0. -/
def signReqZero : Request :=
  ⟨"GET", "/sign-part",
   [("key", "k"), ("uploadId", "u"), ("partNumber", "0")], .ok emptyBody⟩

/-- C2 counterexample: Authorize-Part with `partNumber=-1` — a negative
value — passes the handler's falsiness check, gets a 200 response, and
the backend signing command IS issued, refuting "4xx and no backend
operation for every partNumber ≤ 0". -/
theorem signPart_negative_invokes_backend :
    (fetch signReqNeg "x" stubBackend).2 =
      [BackendCall.uploadPart "large-video=uploads" "k" (-1) "u"] ∧
    (fetch signReqNeg "x" stubBackend).1.status = 200 := by
  exact ⟨by decide, by decide⟩

/-- C2 (amended): for every /sign-part request in which key or uploadId
is empty or absent, or partNumber is missing, non-numeric, or zero
(i.e. its JS `Number` conversion is NaN or 0), the handler returns 400
and issues no backend command. Negative partNumber values are not
rejected. -/
theorem signPart_rejects_falsy_params (req : Request) (uuid : String) (b : Backend)
    (hm : req.method ≠ "OPTIONS") (hp : req.pathname = "/sign-part")
    (h : strFalsy (searchParamsGet req.params "key") = true ∨
         strFalsy (searchParamsGet req.params "uploadId") = true ∨
         numFalsy (jsNumber (searchParamsGet req.params "partNumber")) = true) :
    (fetch req uuid b).1.status = 400 ∧ (fetch req uuid b).2 = [] := by
  have hp1 : req.pathname ≠ "/initiate" := by rw [hp]; decide
  rcases h with h | h | h <;> simp [fetch, hm, hp, hp1, h, withCors]

/-- Witness for C2's amended theorem at `partNumber=0`. -/
theorem signPart_rejects_falsy_params_witness :
    (fetch signReqZero "x" stubBackend).1.status = 400 ∧
    (fetch signReqZero "x" stubBackend).2 = [] :=
  signPart_rejects_falsy_params signReqZero "x" stubBackend
    (by decide) rfl (Or.inr (Or.inr (by decide)))

/-- A /complete request whose body parse throws (malformed JSON). -/
def badJsonReq : Request :=
  ⟨"POST", "/complete", [],
   .error ⟨"Unexpected token in JSON",
           "SyntaxError: Unexpected token in JSON at parse"⟩⟩

/-- C3 counterexample: a /complete request whose body is malformed gets
status 500 — a 5xx-class status, not the 4xx-class status the claim
requires. -/
theorem complete_malformed_body_returns_500 :
    (fetch badJsonReq "x" stubBackend).1.status = 500 ∧
    ¬((fetch badJsonReq "x" stubBackend).1.status < 500) := by
  exact ⟨by decide, by decide⟩

/-- C3 (amended): a /complete request whose body fails to parse is
handled before any backend command is issued, but is reported with
status 500 through the generic catch handler, not with a 4xx status. -/
theorem complete_malformed_body_500_no_backend (req : Request) (uuid : String)
    (b : Backend) (e : JSError)
    (hm : req.method ≠ "OPTIONS") (hp : req.pathname = "/complete")
    (hb : req.jsonBody = .error e) :
    (fetch req uuid b).1.status = 500 ∧ (fetch req uuid b).2 = [] := by
  have hp1 : req.pathname ≠ "/initiate" := by rw [hp]; decide
  have hp2 : req.pathname ≠ "/sign-part" := by rw [hp]; decide
  simp [fetch, hm, hp, hp1, hp2, hb, catchResponse, withCors]

/-- Witness for C3's amended theorem at the concrete malformed request. -/
theorem complete_malformed_body_500_no_backend_witness :
    (fetch badJsonReq "x" stubBackend).1.status = 500 ∧
    (fetch badJsonReq "x" stubBackend).2 = [] :=
  complete_malformed_body_500_no_backend badJsonReq "x" stubBackend
    ⟨"Unexpected token in JSON", "SyntaxError: Unexpected token in JSON at parse"⟩
    (by decide) rfl rfl

/-- A /complete request whose manifest lists part 2 before part 1. -/
def completeReqUnsorted : Request :=
  ⟨"POST", "/complete", [], .ok ⟨some "k", some "U", some [⟨"e2", 2⟩, ⟨"e1", 1⟩]⟩⟩

/-- C4 counterexample: the manifest [(e2,2),(e1,1)] is forwarded to the
backend exactly in that client-supplied order, whose PartNumber sequence
[2,1] is not ascending. -/
theorem complete_does_not_sort_parts :
    (fetch completeReqUnsorted "x" stubBackend).2 =
      [BackendCall.completeMultipartUpload "large-video-uploads" "k" "U"
        [⟨"e2", 2⟩, ⟨"e1", 1⟩]] ∧
    ¬ List.Sorted (· ≤ ·)
        ([⟨"e2", 2⟩, ⟨"e1", 1⟩].map S3Part.PartNumber) := by
  exact ⟨by decide, by decide⟩

/-- C4 (amended): for every valid /complete request, the parts list
forwarded to the backend's completion call is the client manifest mapped
field-wise (etag ↦ ETag, partNumber ↦ PartNumber) in the client-supplied
order; the handler performs no reordering by partNumber. -/
theorem complete_forwards_client_order (req : Request) (uuid : String)
    (b : Backend) (body : CompleteBody)
    (hm : req.method ≠ "OPTIONS") (hp : req.pathname = "/complete")
    (hb : req.jsonBody = .ok body)
    (hk : strFalsy body.key = false) (hu : strFalsy body.uploadId = false)
    (hparts : (body.parts.getD []).isEmpty = false) :
    (fetch req uuid b).2 =
      [BackendCall.completeMultipartUpload "large-video-uploads"
        (body.key.getD "") (body.uploadId.getD "")
        ((body.parts.getD []).map (fun p => S3Part.mk p.etag p.partNumber))] := by
  have hp1 : req.pathname ≠ "/initiate" := by rw [hp]; decide
  have hp2 : req.pathname ≠ "/sign-part" := by rw [hp]; decide
  simp only [fetch, hb]
  rw [if_neg hm, if_neg hp1, if_neg hp2, if_pos hp]
  simp only [hk, hu, hparts, Bool.or_self, Bool.or_false, if_neg]
  cases hres : b.completeMultipartUpload "large-video-uploads"
      (body.key.getD "") (body.uploadId.getD "")
      ((body.parts.getD []).map (fun p => S3Part.mk p.etag p.partNumber)) with
  | error e => simp [hres]
  | ok r => simp [hres]

/-- Witness for C4's amended theorem at the unsorted manifest request. -/
theorem complete_forwards_client_order_witness :
    (fetch completeReqUnsorted "x" stubBackend).2 =
      [BackendCall.completeMultipartUpload "large-video-uploads" "k" "U"
        [⟨"e2", 2⟩, ⟨"e1", 1⟩]] :=
  complete_forwards_client_order completeReqUnsorted "x" stubBackend
    ⟨some "k", some "U", some [⟨"e2", 2⟩, ⟨"e1", 1⟩]⟩
    (by decide) rfl rfl (by decide) (by decide) (by decide)

/-- A /complete request whose parsed body has an empty parts list. -/
def completeReqEmptyParts : Request :=
  ⟨"POST", "/complete", [], .ok ⟨some "k", some "U", some []⟩⟩

/-- C5: every /complete request whose parsed body has an empty or absent
parts list, or an empty or absent key or uploadId, gets status 400 and
no backend command is issued. -/
theorem complete_rejects_invalid_body (req : Request) (uuid : String)
    (b : Backend) (body : CompleteBody)
    (hm : req.method ≠ "OPTIONS") (hp : req.pathname = "/complete")
    (hb : req.jsonBody = .ok body)
    (h : strFalsy body.key = true ∨ strFalsy body.uploadId = true ∨
         (body.parts.getD []).isEmpty = true) :
    (fetch req uuid b).1.status = 400 ∧ (fetch req uuid b).2 = [] := by
  have hp1 : req.pathname ≠ "/initiate" := by rw [hp]; decide
  have hp2 : req.pathname ≠ "/sign-part" := by rw [hp]; decide
  rcases h with h | h | h <;> simp [fetch, hm, hp, hp1, hp2, hb, h, withCors]

/-- Witness for C5 at a /complete request with an empty parts list. -/
theorem complete_rejects_invalid_body_witness :
    (fetch completeReqEmptyParts "x" stubBackend).1.status = 400 ∧
    (fetch completeReqEmptyParts "x" stubBackend).2 = [] :=
  complete_rejects_invalid_body completeReqEmptyParts "x" stubBackend
    ⟨some "k", some "U", some []⟩ (by decide) rfl rfl
    (Or.inr (Or.inr (by decide)))

/-- C6: for every initiate call whose backend session-open succeeds, the
response body returns the key `"uploads/" ++ uuid ++ ".mp4"`, a
non-empty string that begins with the namespace "uploads/" and ends with
the extension ".mp4", with the random identifier between them. -/
theorem initiate_key_shape (req : Request) (uuid : String) (b : Backend)
    (r : CreateResult)
    (hm : req.method ≠ "OPTIONS") (hp : req.pathname = "/initiate")
    (hok : b.createMultipartUpload "large-video-uploads"
      ("uploads/" ++ uuid ++ ".mp4") = .ok r) :
    (fetch req uuid b).1.body =
      RespBody.initiateJson r.UploadId ("uploads/" ++ uuid ++ ".mp4") ∧
    ("uploads/" ++ uuid ++ ".mp4").data ≠ [] ∧
    (∃ t, "uploads/".data ++ t = ("uploads/" ++ uuid ++ ".mp4").data) ∧
    (∃ s, s ++ ".mp4".data = ("uploads/" ++ uuid ++ ".mp4").data) := by
  refine ⟨?_, ?_, ⟨uuid.data ++ ".mp4".data, ?_⟩,
          ⟨"uploads/".data ++ uuid.data, ?_⟩⟩
  · simp [fetch, hm, hp, hok, withCors]
  · simp [String.data_append]
  · simp [String.data_append]
  · simp [String.data_append]

/-- Witness for C6 at uuid "abc" against the succeeding stub backend. -/
theorem initiate_key_shape_witness :
    (fetch initReq "abc" stubBackend).1.body =
      RespBody.initiateJson (CreateResult.mk (some "U1")).UploadId
        ("uploads/" ++ "abc" ++ ".mp4") ∧
    ("uploads/" ++ "abc" ++ ".mp4").data ≠ [] ∧
    (∃ t, "uploads/".data ++ t = ("uploads/" ++ "abc" ++ ".mp4").data) ∧
    (∃ s, s ++ ".mp4".data = ("uploads/" ++ "abc" ++ ".mp4").data) :=
  initiate_key_shape initReq "abc" stubBackend ⟨some "U1"⟩ (by decide) rfl rfl

/-- The three ways a storage-backend command can raise during handling:
which phase ran, the guards that let execution reach the backend, and
the error the backend raised. -/
def backendThrows (req : Request) (uuid : String) (b : Backend) (e : JSError) : Prop :=
  (req.pathname = "/initiate" ∧
    b.createMultipartUpload "large-video-uploads"
      ("uploads/" ++ uuid ++ ".mp4") = .error e) ∨
  (req.pathname = "/sign-part" ∧
    strFalsy (searchParamsGet req.params "key") = false ∧
    strFalsy (searchParamsGet req.params "uploadId") = false ∧
    numFalsy (jsNumber (searchParamsGet req.params "partNumber")) = false ∧
    b.getSignedUrl "large-video=uploads"
      ((searchParamsGet req.params "key").getD "")
      (jsNumber (searchParamsGet req.params "partNumber")).toInt
      ((searchParamsGet req.params "uploadId").getD "") = .error e) ∨
  (∃ body, req.pathname = "/complete" ∧ req.jsonBody = .ok body ∧
    strFalsy body.key = false ∧ strFalsy body.uploadId = false ∧
    (body.parts.getD []).isEmpty = false ∧
    b.completeMultipartUpload "large-video-uploads" (body.key.getD "")
      (body.uploadId.getD "")
      ((body.parts.getD []).map (fun p => S3Part.mk p.etag p.partNumber)) = .error e)

/-- C7: whenever a backend command raises, in any of the three phases,
the handler returns status 500 with the backend error's message carried
unchanged in the body's error field, and the backend was invoked exactly
once (no internal retry). -/
theorem backend_error_surfaced (req : Request) (uuid : String) (b : Backend)
    (e : JSError) (hm : req.method ≠ "OPTIONS")
    (h : backendThrows req uuid b e) :
    (fetch req uuid b).1.status = 500 ∧
    (fetch req uuid b).1.body = RespBody.errorJson e.message e.stack ∧
    (fetch req uuid b).2.length = 1 := by
  rcases h with ⟨hp, herr⟩ | ⟨hp, hk, hu, hn, herr⟩ |
    ⟨body, hp, hb, hk, hu, hps, herr⟩
  · simp [fetch, hm, hp, herr, catchResponse, withCors]
  · have hp1 : req.pathname ≠ "/initiate" := by rw [hp]; decide
    simp [fetch, hm, hp, hp1, hk, hu, hn, herr, catchResponse, withCors]
  · have hp1 : req.pathname ≠ "/initiate" := by rw [hp]; decide
    have hp2 : req.pathname ≠ "/sign-part" := by rw [hp]; decide
    simp [fetch, hm, hp, hp1, hp2, hb, hk, hu, hps, herr, catchResponse, withCors]

/-- Witness for C7: the spec's end-to-end scenario C, a completion call
against a backend whose completion raises "session not found". -/
theorem backend_error_surfaced_witness :
    (fetch completeReqOk "x" sessionNotFoundBackend).1.status = 500 ∧
    (fetch completeReqOk "x" sessionNotFoundBackend).1.body =
      RespBody.errorJson "session not found"
        "Error: session not found\n    at complete" ∧
    (fetch completeReqOk "x" sessionNotFoundBackend).2.length = 1 :=
  backend_error_surfaced completeReqOk "x" sessionNotFoundBackend
    ⟨"session not found", "Error: session not found\n    at complete"⟩
    (by decide)
    (Or.inr (Or.inr ⟨⟨some "uploads/abc.mp4", some "U1", some [⟨"e1", 1⟩]⟩,
      rfl, rfl, by decide, by decide, by decide, rfl⟩))

/-- Handling throws with error `e`: either a backend command raised, or
the /complete body parse raised. -/
def handlerThrows (req : Request) (uuid : String) (b : Backend) (e : JSError) : Prop :=
  backendThrows req uuid b e ∨
  (req.pathname = "/complete" ∧ req.jsonBody = .error e)

/-- C10: whenever handling throws, the 500 response body is the JSON
object carrying both the exception's message (field error) and its full
stack trace (field stack). -/
theorem catch_handler_exposes_stack (req : Request) (uuid : String)
    (b : Backend) (e : JSError) (hm : req.method ≠ "OPTIONS")
    (h : handlerThrows req uuid b e) :
    (fetch req uuid b).1.status = 500 ∧
    (fetch req uuid b).1.body = RespBody.errorJson e.message e.stack := by
  rcases h with (⟨hp, herr⟩ | ⟨hp, hk, hu, hn, herr⟩ |
    ⟨body, hp, hb, hk, hu, hps, herr⟩) | ⟨hp, hb⟩
  · simp [fetch, hm, hp, herr, catchResponse, withCors]
  · have hp1 : req.pathname ≠ "/initiate" := by rw [hp]; decide
    simp [fetch, hm, hp, hp1, hk, hu, hn, herr, catchResponse, withCors]
  · have hp1 : req.pathname ≠ "/initiate" := by rw [hp]; decide
    have hp2 : req.pathname ≠ "/sign-part" := by rw [hp]; decide
    simp [fetch, hm, hp, hp1, hp2, hb, hk, hu, hps, herr, catchResponse, withCors]
  · have hp1 : req.pathname ≠ "/initiate" := by rw [hp]; decide
    have hp2 : req.pathname ≠ "/sign-part" := by rw [hp]; decide
    simp [fetch, hm, hp, hp1, hp2, hb, catchResponse, withCors]

/-- Witness for C10 at the malformed-body request: the parse error's
stack string appears verbatim in the response body. -/
theorem catch_handler_exposes_stack_witness :
    (fetch badJsonReq "x" stubBackend).1.status = 500 ∧
    (fetch badJsonReq "x" stubBackend).1.body =
      RespBody.errorJson "Unexpected token in JSON"
        "SyntaxError: Unexpected token in JSON at parse" :=
  catch_handler_exposes_stack badJsonReq "x" stubBackend
    ⟨"Unexpected token in JSON", "SyntaxError: Unexpected token in JSON at parse"⟩
    (by decide) (Or.inr ⟨rfl, rfl⟩)

end LargeVideoUploader
